import Mathlib

/-
  Shallow embedding of the LookupNPI loop (src/loop/loop.go, second revision,
  lines 343-789 of the concatenated file; claim line numbers refer to that
  revision). The Go program keeps three package-level variables:
      var limit int = 20
      var skip int = 0
      var searchParams SearchParams
  We model the mutable session state (skip, searchParams) explicitly as a
  LoopState value threaded through the handlers, and model UI/network side
  effects as an explicit list of Effect values. Machine integers (Go int)
  are modelled as Int; no arithmetic in the program approaches overflow.
-/

namespace LookupNPI

/-- Go struct SearchParams (loop.go lines 782-789): the six shared query
fields, all strings. -/
structure SearchParams where
  Number : String
  FirstName : String
  LastName : String
  City : String
  State : String
  Organization : String
deriving DecidableEq, Repr

/-- Go struct Basic (loop.go lines 753-757). -/
structure Basic where
  first_name : String
  last_name : String
  organization_name : String
deriving DecidableEq, Repr

/-- Go struct Taxonomy (loop.go lines 774-780). -/
structure Taxonomy where
  code : String
  description : String
  primary : Bool
  state : String
  license : String
deriving DecidableEq, Repr

/-- Go struct Address (loop.go lines 767-772). -/
structure Address where
  city : String
  state : String
  postalCode : String
  country : String
deriving DecidableEq, Repr

/-- Go struct OtherName (loop.go lines 759-765). -/
structure OtherName where
  type : String
  other_prefix : String
  first_name : String
  last_name : String
  organization_name : String
deriving DecidableEq, Repr

/-- Go struct NpiInfo (loop.go lines 744-751). -/
structure NpiInfo where
  number : Int
  basic : Basic
  enumeration_type : String
  taxonimies : List Taxonomy
  addresses : List Address
  otherNames : List OtherName
deriving DecidableEq, Repr

/-- Go struct LookupResults (loop.go lines 739-742). -/
structure LookupResults where
  result_count : Int
  results : List NpiInfo
deriving DecidableEq, Repr

/-- Go: var limit int = 20 (loop.go line 382). -/
def limit : Int := 20

/-- Go func ClearSearchParams (loop.go lines 534-541): sets every field of
the shared searchParams to the empty string. We model the cleared value. -/
def ClearSearchParams : SearchParams :=
  { Number := "", FirstName := "", LastName := "", City := "", State := "",
    Organization := "" }

/-- Go: strings.ReplaceAll(s, " ", "+") on a single-character pattern, as
used by RemoveSpaces (loop.go lines 525-530). -/
def replaceSpacePlus (s : String) : String :=
  String.mk (s.data.map fun c => if c = ' ' then '+' else c)

/-- Go func RemoveSpaces (loop.go lines 524-532): returns a copy of the
params with every space in every field replaced by a plus sign. -/
def RemoveSpaces (params : SearchParams) : SearchParams :=
  { Number := replaceSpacePlus params.Number,
    FirstName := replaceSpacePlus params.FirstName,
    LastName := replaceSpacePlus params.LastName,
    City := replaceSpacePlus params.City,
    State := replaceSpacePlus params.State,
    Organization := replaceSpacePlus params.Organization }

/-- OnChange handler of the number form input (loop.go lines 444-457):
when the length is neither 10 nor 0 it sends an advisory warning whisper,
and if that whisper call itself returns an error the handler logs and
returns early at line 453, so the assignment searchParams.Number = number
at line 456 is skipped on that path. The whisperFails parameter models the
outcome of the external whisper call; the returned Bool is true when the
warning condition held and the whisper was attempted. -/
def numberOnChange (sp : SearchParams) (number : String)
    (whisperFails : Bool) : SearchParams × Bool :=
  let warn := number.length != 10 && decide (0 < number.length)
  (if warn && whisperFails then sp else { sp with Number := number }, warn)

/-- OnChange handler of the firstName form input (loop.go lines 463-465):
stores the raw value with a wildcard appended. -/
def firstNameOnChange (sp : SearchParams) (firstName : String) : SearchParams :=
  { sp with FirstName := firstName ++ "*" }

/-- OnChange handler of the lastName form input (loop.go lines 471-473). -/
def lastNameOnChange (sp : SearchParams) (lastName : String) : SearchParams :=
  { sp with LastName := lastName ++ "*" }

/-- OnChange handler of the organization form input (loop.go lines 479-481). -/
def organizationOnChange (sp : SearchParams) (organization : String) : SearchParams :=
  { sp with Organization := organization ++ "*" }

/-- OnChange handler of the city form input (loop.go lines 487-500): stores
the wildcarded value, then warns when the State field is empty. -/
def cityOnChange (sp : SearchParams) (city : String) : SearchParams × Bool :=
  let sp' := { sp with City := city ++ "*" }
  (sp', sp'.State == "")

/-- OnChange handler of the state form input (loop.go lines 506-519). -/
def stateOnChange (sp : SearchParams) (state : String) : SearchParams × Bool :=
  let sp' := { sp with State := state ++ "*" }
  (sp', sp'.City == "")

/-- Disambiguation label computed inside CreateDisambiguationElements
(loop.go lines 548-554): starts empty, the first-name rule writes first,
the organization rule overwrites. -/
def disambLabel (b : Basic) : String :=
  let label0 := ""
  let label1 := if b.first_name ≠ "" then
      "Name: " ++ b.first_name ++ " " ++ b.last_name
    else label0
  let label2 := if b.organization_name ≠ "" then
      "Organization: " ++ b.organization_name
    else label1
  label2

/-- Full option label of one record (loop.go lines 556-558). -/
def elementLabel (item : NpiInfo) : String :=
  "* NPI: " ++ toString item.number ++ ", " ++ disambLabel item.basic

/-- Rendered content of one disambiguation element (label and order of
WhisperContentDisambiguationElementOption). -/
structure DisambiguationElement where
  label : String
  order : Nat
deriving DecidableEq, Repr

/-- Go func CreateDisambiguationElements (loop.go lines 543-632), restricted
to the rendered map content. The Go map with string keys is modelled as an
association list in insertion order: one entry per record under its index
key, a next entry exactly when the page holds limit records, and a prev
entry always. -/
def CreateDisambiguationElements (results : List NpiInfo) :
    List (String × DisambiguationElement) :=
  (results.enum.map fun p =>
    (toString p.1, { label := elementLabel p.2, order := p.1 + 1 }))
  ++ (if (results.length : Int) = limit then
        [("next", { label := "Next 20 Results", order := results.length + 1 })]
      else [])
  ++ [("prev", { label := "Previous 20 Results", order := results.length + 1 })]

/-- Keys present in an element map. -/
def keysOf (es : List (String × DisambiguationElement)) : List String :=
  es.map Prod.fst

/-- Title of the disambiguation whisper (loop.go lines 425-431, 586-592 and
616-622): restates the six fields separated by spaces. -/
def resultsLabel (sp : SearchParams) : String :=
  "LookupNPI Results for: " ++ sp.Number ++ " " ++ sp.FirstName ++ " " ++
  sp.LastName ++ " " ++ sp.Organization ++ " " ++ sp.City ++ " " ++ sp.State

/-- URL built by GetLookupResults (loop.go lines 688-696). -/
def lookupUrl (sp : SearchParams) (lim skp : Int) : String :=
  "https://npiregistry.cms.hhs.gov/api/?number=" ++ sp.Number ++
  "&enumeration_type=&taxonomy_description=&first_name=" ++ sp.FirstName ++
  "&last_name=" ++ sp.LastName ++
  "&organization_name=" ++ sp.Organization ++
  "&address_purpose=&city=" ++ sp.City ++
  "&state=" ++ sp.State ++
  "&postal_code=&country_code=&limit=" ++ toString lim ++
  "&skip=" ++ toString skp ++ "&version=2.0"

/-- Outcome of the HTTP transport call. -/
inductive TransportResult where
  | success (data : String)
  | failure (msg : String)
deriving DecidableEq, Repr

/-- The zero value of LookupResults, which the Go var declaration gives the
local lookupResults before any assignment. -/
def zeroLookupResults : LookupResults := { result_count := 0, results := [] }

/-- Go func GetLookupResults (loop.go lines 686-711), with the external HTTP
transport and the JSON decoder passed as parameters. On transport failure
or decode failure the Go code only logs the error and falls through, so the
function still returns the (zero-valued) lookupResults; it never propagates
an error to its caller and never touches the pagination variables. -/
def GetLookupResults (transport : String → TransportResult)
    (decode : String → Except String LookupResults)
    (sp : SearchParams) (lim skp : Int) : LookupResults :=
  match transport (lookupUrl sp lim skp) with
  | TransportResult.failure _ => zeroLookupResults
  | TransportResult.success data =>
    match decode data with
    | Except.error _ => zeroLookupResults
    | Except.ok r => r

/-- The mutable package-level session state of the loop: var skip (line 383)
and var searchParams (line 384). -/
structure LoopState where
  skip : Int
  searchParams : SearchParams
deriving DecidableEq, Repr

/-- Observable side effects of the session: a call to GetLookupResults with
the params, limit and skip the code passes, and a disambiguation whisper
with its title. -/
inductive Effect where
  | gatewayCall (params : SearchParams) (lim : Int) (skp : Int)
  | renderList (title : String)
deriving DecidableEq, Repr

/-- Go func run (loop.go lines 406-436), sequential semantics. The steps:
ClearSearchParams; the form whisper, during which the OnChange handlers
rewrite the shared searchParams (modelled by the formEdits function applied
to the cleared params); an unconditional GetLookupResults with
RemoveSpaces(searchParams), limit and the literal 0; the disambiguation
whisper only when isSubmitted; a final ClearSearchParams. The skip variable
is never read or written by run. -/
def run (st : LoopState) (formEdits : SearchParams → SearchParams)
    (isSubmitted : Bool) : LoopState × List Effect :=
  let sp1 := formEdits ClearSearchParams
  ({ skip := st.skip, searchParams := ClearSearchParams },
   [Effect.gatewayCall (RemoveSpaces sp1) limit 0]
   ++ (if isSubmitted then [Effect.renderList (resultsLabel sp1)] else []))

/-- Skip update of the next handler (loop.go line 580): skip += limit. -/
def nextSkip (s : Int) : Int := s + limit

/-- Skip update of the prev handler (loop.go lines 608-610): subtract limit
only when skip is not zero. -/
def prevSkip (s : Int) : Int := if s ≠ 0 then s - limit else s

/-- OnChange handler of the next element (loop.go lines 578-599): bumps the
shared skip, calls GetLookupResults with the shared searchParams read at
click time (no RemoveSpaces), and re-renders with a title built from the
same shared searchParams. -/
def nextOnChange (st : LoopState) : LoopState × List Effect :=
  let s' := nextSkip st.skip
  ({ st with skip := s' },
   [Effect.gatewayCall st.searchParams limit s',
    Effect.renderList (resultsLabel st.searchParams)])

/-- OnChange handler of the prev element (loop.go lines 606-630). -/
def prevOnChange (st : LoopState) : LoopState × List Effect :=
  let s' := prevSkip st.skip
  ({ st with skip := s' },
   [Effect.gatewayCall st.searchParams limit s',
    Effect.renderList (resultsLabel st.searchParams)])

/-- A navigation click, for stating reachability of skip values. -/
inductive NavAction where
  | next
  | prev
deriving DecidableEq, Repr

/-- Effect of one navigation click on the skip variable. -/
def applyNav (s : Int) : NavAction → Int
  | NavAction.next => nextSkip s
  | NavAction.prev => prevSkip s

/-- Skip value after a sequence of navigation clicks. -/
def navFold (s : Int) (acts : List NavAction) : Int :=
  acts.foldl applyNav s

/-- Number of gateway calls in an effect list. -/
def gatewayCallCount (effects : List Effect) : Nat :=
  (effects.filter fun e =>
    match e with
    | Effect.gatewayCall _ _ _ => true
    | Effect.renderList _ => false).length

/-- Query params holding a first name that contains an internal space, as
stored by the firstName handler for the raw input a-space-b. -/
def spacedParams : SearchParams := { ClearSearchParams with FirstName := "a b*" }

/- Helper lemmas. -/

theorem digitChar_lt_ten_isDigit (n : Nat) (h : n < 10) :
    (Nat.digitChar n).isDigit = true := by
  interval_cases n <;> decide

theorem toDigitsCore_ten_isDigit :
    ∀ (fuel n : Nat) (ds : List Char), (∀ c ∈ ds, c.isDigit = true) →
      ∀ c ∈ Nat.toDigitsCore 10 fuel n ds, c.isDigit = true := by
  intro fuel
  induction fuel with
  | zero =>
    intro n ds hds c hc
    exact hds c hc
  | succ fuel ih =>
    intro n ds hds c hc
    rw [Nat.toDigitsCore] at hc
    by_cases h : n / 10 = 0
    · simp only [h, if_pos] at hc
      rcases List.mem_cons.mp hc with hc | hc
      · subst hc
        exact digitChar_lt_ten_isDigit _ (Nat.mod_lt _ (by decide))
      · exact hds c hc
    · simp only [h, if_neg, if_false] at hc
      refine ih (n / 10) (Nat.digitChar (n % 10) :: ds) ?_ c hc
      intro c' hc'
      rcases List.mem_cons.mp hc' with hc' | hc'
      · subst hc'
        exact digitChar_lt_ten_isDigit _ (Nat.mod_lt _ (by decide))
      · exact hds c' hc'

theorem toString_nat_isDigit (n : Nat) :
    ∀ c ∈ (toString n).data, c.isDigit = true := by
  show ∀ c ∈ Nat.toDigits 10 n, c.isDigit = true
  exact toDigitsCore_ten_isDigit (n + 1) n [] (by intro c hc; cases hc)

theorem toString_nat_ne_next (n : Nat) : toString n ≠ "next" := by
  intro h
  have hd := toString_nat_isDigit n
  rw [h] at hd
  have hn := hd 'n' (by decide)
  simp at hn

theorem keysOf_CreateDisambiguationElements (results : List NpiInfo) :
    keysOf (CreateDisambiguationElements results) =
      results.enum.map (fun p => toString p.1)
      ++ ((if (results.length : Int) = limit then ["next"] else [])
      ++ ["prev"]) := by
  by_cases hlen : (results.length : Int) = limit <;>
    simp [keysOf, CreateDisambiguationElements, hlen]

theorem navFold_invariant (acts : List NavAction) :
    ∀ s : Int, 0 ≤ s → s % 20 = 0 → 0 ≤ navFold s acts ∧ navFold s acts % 20 = 0 := by
  induction acts with
  | nil =>
    intro s h1 h2
    exact ⟨h1, h2⟩
  | cons a as ih =>
    intro s h1 h2
    have hstep : navFold s (a :: as) = navFold (applyNav s a) as := rfl
    rw [hstep]
    rcases a with _ | _
    · exact ih (s + 20) (by omega) (by omega)
    · by_cases hs : s = 0
      · have hz : applyNav s NavAction.prev = s := by simp [applyNav, prevSkip, hs]
        rw [hz]
        exact ih s h1 h2
      · have hz : applyNav s NavAction.prev = s - 20 := by
          simp [applyNav, prevSkip, hs, limit]
        rw [hz]
        exact ih (s - 20) (by omega) (by omega)

/- Claim theorems. -/

/-- C1, counterexample: after a submitted session searching for the first
name Jo, the next click issues its gateway call and builds its title from
the cleared shared params, whose FirstName is no longer the submitted
value. The claim said navigation replays a retained snapshot of the
submitted query after the shared fields are wiped. -/
theorem c1_counterexample :
    (nextOnChange (run { skip := 0, searchParams := ClearSearchParams }
        (fun sp => firstNameOnChange sp "Jo") true).1).2
      = [Effect.gatewayCall ClearSearchParams limit 20,
         Effect.renderList (resultsLabel ClearSearchParams)]
    ∧ ClearSearchParams.FirstName ≠ "Jo*" := ⟨rfl, by decide⟩

/-- C1, amended: run always leaves the shared query fields cleared, and any
subsequent next or previous click reads that shared state, so its lookup
and its list title are built from all-empty fields rather than from the
submitted query values. -/
theorem c1_navigation_reads_cleared_query (st : LoopState)
    (edits : SearchParams → SearchParams) (isSubmitted : Bool) :
    ((run st edits isSubmitted).1).searchParams = ClearSearchParams
    ∧ (nextOnChange (run st edits isSubmitted).1).2
        = [Effect.gatewayCall ClearSearchParams limit (st.skip + limit),
           Effect.renderList (resultsLabel ClearSearchParams)]
    ∧ (prevOnChange (run st edits isSubmitted).1).2
        = [Effect.gatewayCall ClearSearchParams limit (prevSkip st.skip),
           Effect.renderList (resultsLabel ClearSearchParams)] := ⟨rfl, rfl, rfl⟩

/-- C1, witness for the amended theorem at a concrete state. -/
theorem c1_witness :
    ((run { skip := 0, searchParams := ClearSearchParams }
        (fun sp => firstNameOnChange sp "Jo") false).1).searchParams
      = ClearSearchParams
    ∧ (nextOnChange (run { skip := 0, searchParams := ClearSearchParams }
        (fun sp => firstNameOnChange sp "Jo") false).1).2
        = [Effect.gatewayCall ClearSearchParams limit ((0 : Int) + limit),
           Effect.renderList (resultsLabel ClearSearchParams)]
    ∧ (prevOnChange (run { skip := 0, searchParams := ClearSearchParams }
        (fun sp => firstNameOnChange sp "Jo") false).1).2
        = [Effect.gatewayCall ClearSearchParams limit (prevSkip (0 : Int)),
           Effect.renderList (resultsLabel ClearSearchParams)] :=
  c1_navigation_reads_cleared_query { skip := 0, searchParams := ClearSearchParams }
    (fun sp => firstNameOnChange sp "Jo") false

/-- C2, counterexample: first session submits, the user clicks next twice
so the shared skip reaches 40; a second search is then submitted, and the
very first next click of the new session requests offset 60, not the page
size 20, because the skip variable is never reset by run. -/
theorem c2_counterexample :
    (nextOnChange (run (nextOnChange (nextOnChange (run
        { skip := 0, searchParams := ClearSearchParams }
        (fun sp => firstNameOnChange sp "Jo") true).1).1).1
        (fun sp => lastNameOnChange sp "Sm") true).1).2.head?
      = some (Effect.gatewayCall ClearSearchParams limit 60)
    ∧ (60 : Int) ≠ 20 := ⟨rfl, by decide⟩

/-- C2, amended: the lookup issued directly by run always uses the literal
offset 0, and the offset is mutated only by the navigation handlers, but
the skip variable itself is never reset when a new search is started: run
leaves it unchanged, so the first next click after a new submission
requests the old skip plus the page size rather than the page size. -/
theorem c2_cursor_not_reset_on_new_search (st : LoopState)
    (edits : SearchParams → SearchParams) (isSubmitted : Bool) :
    (run st edits isSubmitted).2.head?
      = some (Effect.gatewayCall (RemoveSpaces (edits ClearSearchParams)) limit 0)
    ∧ (run st edits isSubmitted).1.skip = st.skip
    ∧ (nextOnChange (run st edits isSubmitted).1).1.skip = st.skip + limit
    ∧ (nextOnChange (run st edits isSubmitted).1).2.head?
      = some (Effect.gatewayCall ClearSearchParams limit (st.skip + limit)) :=
  ⟨rfl, rfl, rfl, rfl⟩

/-- C2, witness for the amended theorem at a concrete state with stale
skip 40. -/
theorem c2_witness :
    (run { skip := 40, searchParams := ClearSearchParams }
        (fun sp => lastNameOnChange sp "Sm") true).2.head?
      = some (Effect.gatewayCall
          (RemoveSpaces (lastNameOnChange ClearSearchParams "Sm")) limit 0)
    ∧ (run { skip := 40, searchParams := ClearSearchParams }
        (fun sp => lastNameOnChange sp "Sm") true).1.skip = 40
    ∧ (nextOnChange (run { skip := 40, searchParams := ClearSearchParams }
        (fun sp => lastNameOnChange sp "Sm") true).1).1.skip = (40 : Int) + limit
    ∧ (nextOnChange (run { skip := 40, searchParams := ClearSearchParams }
        (fun sp => lastNameOnChange sp "Sm") true).1).2.head?
      = some (Effect.gatewayCall ClearSearchParams limit ((40 : Int) + limit)) :=
  c2_cursor_not_reset_on_new_search { skip := 40, searchParams := ClearSearchParams }
    (fun sp => lastNameOnChange sp "Sm") true

/-- C3, counterexample: with the form cancelled (isSubmitted false) the run
function still performs exactly one gateway call, so a cancelled form does
not skip the remote lookup as the claim states. -/
theorem c3_counterexample :
    gatewayCallCount ((run { skip := 0, searchParams := ClearSearchParams }
      (fun sp => firstNameOnChange sp "Jo") false).2) ≠ 0 := by decide

/-- C3, amended: on form cancellation the controller still issues the
remote lookup with the edited, space-normalized fields, but it skips only
the rendering of the choice list; the Query Model is reset afterwards. -/
theorem c3_cancel_still_invokes_gateway (st : LoopState)
    (edits : SearchParams → SearchParams) :
    (run st edits false).2
      = [Effect.gatewayCall (RemoveSpaces (edits ClearSearchParams)) limit 0]
    ∧ (run st edits false).1.searchParams = ClearSearchParams := ⟨rfl, rfl⟩

/-- C3, witness for the amended theorem at a concrete state. -/
theorem c3_witness :
    (run { skip := 0, searchParams := ClearSearchParams }
        (fun sp => firstNameOnChange sp "Jo") false).2
      = [Effect.gatewayCall
          (RemoveSpaces (firstNameOnChange ClearSearchParams "Jo")) limit 0]
    ∧ (run { skip := 0, searchParams := ClearSearchParams }
        (fun sp => firstNameOnChange sp "Jo") false).1.searchParams
      = ClearSearchParams :=
  c3_cancel_still_invokes_gateway { skip := 0, searchParams := ClearSearchParams }
    (fun sp => firstNameOnChange sp "Jo")

/-- C4: when the transport fails, and likewise when the JSON decode fails,
GetLookupResults does not propagate any error: it returns the zero-valued
result page (count 0, no records) to its caller, and it never touches the
pagination state. The claim, following the stated gateway contract, says
the operation must fail with a LookupFailure instead of returning a page;
the code only logs and falls through, which the spec itself flags as a
defect of the original implementation. -/
theorem c4_failure_returns_zero_page (sp : SearchParams) (lim skp : Int)
    (msg d : String) (decode : String → Except String LookupResults) :
    GetLookupResults (fun _ => TransportResult.failure msg) decode sp lim skp
      = zeroLookupResults
    ∧ GetLookupResults (fun _ => TransportResult.success d)
        (fun _ => Except.error msg) sp lim skp = zeroLookupResults :=
  ⟨rfl, rfl⟩

/-- C4, witness at a concrete failing transport. -/
theorem c4_witness :
    GetLookupResults (fun _ => TransportResult.failure "network down")
        (fun _ => Except.error "no data") ClearSearchParams 20 0
      = zeroLookupResults
    ∧ GetLookupResults (fun _ => TransportResult.success "not json")
        (fun _ => Except.error "no data") ClearSearchParams 20 0
      = zeroLookupResults :=
  c4_failure_returns_zero_page ClearSearchParams 20 0 "network down" "not json"
    (fun _ => Except.error "no data")

/-- C5: a rendered element map contains the next key exactly when the page
holds the full page size of 20 records, and it contains the prev key for
every page, including the empty page and every short page. -/
theorem c5_next_iff_full_page_prev_always (results : List NpiInfo) :
    ("next" ∈ keysOf (CreateDisambiguationElements results) ↔ results.length = 20)
    ∧ "prev" ∈ keysOf (CreateDisambiguationElements results) := by
  rw [keysOf_CreateDisambiguationElements]
  constructor
  · constructor
    · intro h
      rcases List.mem_append.mp h with h | h
      · rcases List.mem_map.mp h with ⟨p, hp, hps⟩
        exact absurd hps (toString_nat_ne_next p.1)
      · rcases List.mem_append.mp h with h | h
        · by_cases hlen : (results.length : Int) = limit
          · have h20 : (results.length : Int) = 20 := hlen
            exact_mod_cast h20
          · rw [if_neg hlen] at h
            cases h
        · exact absurd (List.mem_singleton.mp h) (by decide)
    · intro h
      have hlen : (results.length : Int) = limit := by rw [h]; rfl
      refine List.mem_append.mpr (Or.inr (List.mem_append.mpr (Or.inl ?_)))
      rw [if_pos hlen]
      exact List.mem_singleton.mpr rfl
  · exact List.mem_append.mpr (Or.inr (List.mem_append.mpr
      (Or.inr (List.mem_singleton.mpr rfl))))

/-- C5, witness on a concrete full page of 20 records and on the empty
page. -/
theorem c5_witness :
    (("next" ∈ keysOf (CreateDisambiguationElements
        (List.replicate 20 ⟨1, ⟨"", "", ""⟩, "NPI-1", [], [], []⟩)) ↔
      (List.replicate 20
        (⟨1, ⟨"", "", ""⟩, "NPI-1", [], [], []⟩ : NpiInfo)).length = 20)
    ∧ "prev" ∈ keysOf (CreateDisambiguationElements
        (List.replicate 20 ⟨1, ⟨"", "", ""⟩, "NPI-1", [], [], []⟩))) :=
  c5_next_iff_full_page_prev_always
    (List.replicate 20 ⟨1, ⟨"", "", ""⟩, "NPI-1", [], [], []⟩)

/-- C6: for every nonnegative offset, a next click followed by a prev click
returns the skip variable to its original value; a prev click at offset 0
leaves it at 0; and no sequence of navigation clicks starting from offset 0
can ever drive the offset negative. -/
theorem c6_next_prev_roundtrip_nonneg (s : Int) (acts : List NavAction)
    (h : 0 ≤ s) :
    prevSkip (nextSkip s) = s ∧ prevSkip 0 = 0 ∧ 0 ≤ navFold 0 acts := by
  refine ⟨?_, by simp [prevSkip], (navFold_invariant acts 0 le_rfl rfl).1⟩
  have hne : nextSkip s ≠ 0 := by
    simp only [nextSkip, limit]
    omega
  simp only [prevSkip, hne, if_pos, nextSkip, limit]
  omega

/-- C6, witness at offset 40 with a concrete click sequence. -/
theorem c6_witness :
    (0 : Int) ≤ 40 ∧ (prevSkip (nextSkip 40) = 40 ∧ prevSkip 0 = 0 ∧
      0 ≤ navFold 0 [NavAction.next, NavAction.prev, NavAction.prev]) :=
  ⟨by decide, c6_next_prev_roundtrip_nonneg 40
    [NavAction.next, NavAction.prev, NavAction.prev] (by decide)⟩

/-- C7, counterexample: the stored value for the raw first name a-space-b
is that raw text plus the wildcard, so it still contains an internal space,
and a navigation click passes the stored fields to the gateway verbatim,
without the space-to-plus replacement. The claim said the stored value
contains no internal spaces and that navigation queries are normalized. -/
theorem c7_counterexample :
    (firstNameOnChange ClearSearchParams "a b").FirstName = "a b*"
    ∧ ' ' ∈ (firstNameOnChange ClearSearchParams "a b").FirstName.data
    ∧ (nextOnChange { skip := 0, searchParams := spacedParams }).2.head?
      = some (Effect.gatewayCall spacedParams limit 20) :=
  ⟨rfl, by decide, rfl⟩

/-- C7, amended: for every one of the five free-text fields the stored
value is the raw input with the wildcard appended, internal spaces
retained; the space-to-plus replacement is applied by RemoveSpaces only to
the lookup issued directly after form submission, while both the next and
the previous navigation handlers pass the shared fields to the gateway
unreplaced. RemoveSpaces output itself contains no spaces. -/
theorem c7_wildcard_stored_spaces_only_on_submit (sp : SearchParams)
    (raw s : String) (st : LoopState) (edits : SearchParams → SearchParams)
    (isSubmitted : Bool) :
    (firstNameOnChange sp raw).FirstName = raw ++ "*"
    ∧ (lastNameOnChange sp raw).LastName = raw ++ "*"
    ∧ (organizationOnChange sp raw).Organization = raw ++ "*"
    ∧ (cityOnChange sp raw).1.City = raw ++ "*"
    ∧ (stateOnChange sp raw).1.State = raw ++ "*"
    ∧ (raw ++ "*").data = raw.data ++ ['*']
    ∧ ((replaceSpacePlus s).data.all fun c => !(c == ' ')) = true
    ∧ (run st edits isSubmitted).2.head?
      = some (Effect.gatewayCall (RemoveSpaces (edits ClearSearchParams)) limit 0)
    ∧ (nextOnChange st).2.head?
      = some (Effect.gatewayCall st.searchParams limit (st.skip + limit))
    ∧ (prevOnChange st).2.head?
      = some (Effect.gatewayCall st.searchParams limit (prevSkip st.skip)) := by
  refine ⟨rfl, rfl, rfl, rfl, rfl, ?_, ?_, rfl, rfl, rfl⟩
  · rw [String.data_append]
  · rw [List.all_eq_true]
    intro c hc
    have hc' : c ∈ s.data.map (fun c => if c = ' ' then '+' else c) := hc
    rcases List.mem_map.mp hc' with ⟨c0, _, rfl⟩
    by_cases h : c0 = ' ' <;> simp [h]

/-- C7, witness for the amended theorem at concrete inputs. -/
theorem c7_witness :
    (firstNameOnChange ClearSearchParams "a b").FirstName = "a b" ++ "*"
    ∧ (lastNameOnChange ClearSearchParams "a b").LastName = "a b" ++ "*"
    ∧ (organizationOnChange ClearSearchParams "a b").Organization = "a b" ++ "*"
    ∧ (cityOnChange ClearSearchParams "a b").1.City = "a b" ++ "*"
    ∧ (stateOnChange ClearSearchParams "a b").1.State = "a b" ++ "*"
    ∧ (("a b" : String) ++ "*").data = ("a b" : String).data ++ ['*']
    ∧ ((replaceSpacePlus "a b").data.all fun c => !(c == ' ')) = true
    ∧ (run { skip := 0, searchParams := ClearSearchParams }
        (fun q => firstNameOnChange q "a b") true).2.head?
      = some (Effect.gatewayCall
          (RemoveSpaces (firstNameOnChange ClearSearchParams "a b")) limit 0)
    ∧ (nextOnChange { skip := 0, searchParams := ClearSearchParams }).2.head?
      = some (Effect.gatewayCall ClearSearchParams limit ((0 : Int) + limit))
    ∧ (prevOnChange { skip := 0, searchParams := ClearSearchParams }).2.head?
      = some (Effect.gatewayCall ClearSearchParams limit (prevSkip (0 : Int))) :=
  c7_wildcard_stored_spaces_only_on_submit ClearSearchParams "a b" "a b"
    { skip := 0, searchParams := ClearSearchParams }
    (fun q => firstNameOnChange q "a b") true

/-- C8, counterexample: on the 3-character input the warning condition
holds, and when the warning whisper call itself fails the handler returns
early, so the input value is never assigned to the query: the Number field
keeps its previous empty value. The claim said the value is stored in
every case, warning or not. -/
theorem c8_counterexample :
    (numberOnChange ClearSearchParams "123" true).2 = true
    ∧ (numberOnChange ClearSearchParams "123" true).1.Number ≠ "123"
    ∧ (numberOnChange ClearSearchParams "123" true).1.Number = "" := by
  refine ⟨by decide, by decide, by decide⟩

/-- C8, amended: the number field fires its advisory warning exactly when
the input length is neither 0 nor 10, and the raw input is stored in the
query in every case except one: when the warning fires and the warning
whisper call itself returns an error, the handler returns early and the
previous value is kept. Whenever the whisper does not fail, and whenever
no warning fires, the value is stored, so a successful warning never
blocks editing. -/
theorem c8_number_warning_iff_store_unless_whisper_fails (sp : SearchParams)
    (number : String) (whisperFails : Bool) :
    ((numberOnChange sp number whisperFails).2 = true ↔
      (number.length ≠ 0 ∧ number.length ≠ 10))
    ∧ (numberOnChange sp number false).1.Number = number
    ∧ (numberOnChange sp number whisperFails).1.Number
      = (if (numberOnChange sp number whisperFails).2 && whisperFails then
           sp.Number
         else number) := by
  refine ⟨?_, ?_, ?_⟩
  · simp only [numberOnChange, Bool.and_eq_true, bne_iff_ne, ne_eq,
      decide_eq_true_eq]
    omega
  · cases h : (number.length != 10 && decide (0 < number.length)) <;>
      simp [numberOnChange, h]
  · cases h : (number.length != 10 && decide (0 < number.length)) <;>
      cases whisperFails <;> simp [numberOnChange, h]

/-- C8, witness for the amended theorem at a concrete 3-character input
with a failing whisper. -/
theorem c8_witness :
    (((numberOnChange ClearSearchParams "123" true).2 = true ↔
      (("123" : String).length ≠ 0 ∧ ("123" : String).length ≠ 10))
    ∧ (numberOnChange ClearSearchParams "123" false).1.Number = "123"
    ∧ (numberOnChange ClearSearchParams "123" true).1.Number
      = (if (numberOnChange ClearSearchParams "123" true).2 && true then
           ClearSearchParams.Number
         else "123")) :=
  c8_number_warning_iff_store_unless_whisper_fails ClearSearchParams "123" true

/-- C9: the disambiguation label gives the organization rule precedence: a
record whose basic block has a non-empty organization name renders the
organization label even when the first name is also non-empty, a record
with only a non-empty first name renders the person-name label, and a
record with both empty renders an empty label so that only the record id
remains in the full option text. -/
theorem c9_label_precedence (item : NpiInfo) :
    elementLabel item
      = "* NPI: " ++ toString item.number ++ ", " ++ disambLabel item.basic
    ∧ disambLabel item.basic =
        (if item.basic.organization_name ≠ "" then
           "Organization: " ++ item.basic.organization_name
         else if item.basic.first_name ≠ "" then
           "Name: " ++ item.basic.first_name ++ " " ++ item.basic.last_name
         else "") := by
  refine ⟨rfl, ?_⟩
  by_cases h1 : item.basic.organization_name = "" <;>
    by_cases h2 : item.basic.first_name = "" <;>
      simp [disambLabel, h1, h2]

/-- C9, witness at a concrete record carrying both a first name and an
organization name. -/
theorem c9_witness :
    elementLabel ⟨7, ⟨"Jo", "Sm", "Acme"⟩, "NPI-2", [], [], []⟩
      = "* NPI: " ++ toString (7 : Int) ++ ", "
        ++ disambLabel (⟨7, ⟨"Jo", "Sm", "Acme"⟩, "NPI-2", [], [], []⟩ : NpiInfo).basic
    ∧ disambLabel (⟨7, ⟨"Jo", "Sm", "Acme"⟩, "NPI-2", [], [], []⟩ : NpiInfo).basic =
        (if (⟨"Jo", "Sm", "Acme"⟩ : Basic).organization_name ≠ "" then
           "Organization: " ++ (⟨"Jo", "Sm", "Acme"⟩ : Basic).organization_name
         else if (⟨"Jo", "Sm", "Acme"⟩ : Basic).first_name ≠ "" then
           "Name: " ++ (⟨"Jo", "Sm", "Acme"⟩ : Basic).first_name ++ " "
             ++ (⟨"Jo", "Sm", "Acme"⟩ : Basic).last_name
         else "") :=
  c9_label_precedence ⟨7, ⟨"Jo", "Sm", "Acme"⟩, "NPI-2", [], [], []⟩

/-- C10: every free-text handler stores the raw input with the wildcard
appended unconditionally, so the stored value is never empty: clearing a
field stores the bare wildcard, which RemoveSpaces passes through
unchanged to the registry query. -/
theorem c10_wildcard_unconditional (sp : SearchParams) (raw : String) :
    (firstNameOnChange sp raw).FirstName = raw ++ "*"
    ∧ (lastNameOnChange sp raw).LastName = raw ++ "*"
    ∧ (organizationOnChange sp raw).Organization = raw ++ "*"
    ∧ (cityOnChange sp raw).1.City = raw ++ "*"
    ∧ (stateOnChange sp raw).1.State = raw ++ "*"
    ∧ raw ++ "*" ≠ ""
    ∧ (firstNameOnChange sp "").FirstName = "*"
    ∧ replaceSpacePlus "*" = "*" := by
  refine ⟨rfl, rfl, rfl, rfl, rfl, ?_, rfl, rfl⟩
  intro h
  have hlen := congrArg String.length h
  rw [String.length_append] at hlen
  have h1 : ("*" : String).length = 1 := rfl
  have h0 : ("" : String).length = 0 := rfl
  rw [h1, h0] at hlen
  omega

/-- C10, witness at the empty raw input. -/
theorem c10_witness :
    (firstNameOnChange ClearSearchParams "").FirstName = "" ++ "*"
    ∧ (lastNameOnChange ClearSearchParams "").LastName = "" ++ "*"
    ∧ (organizationOnChange ClearSearchParams "").Organization = "" ++ "*"
    ∧ (cityOnChange ClearSearchParams "").1.City = "" ++ "*"
    ∧ (stateOnChange ClearSearchParams "").1.State = "" ++ "*"
    ∧ ("" : String) ++ "*" ≠ ""
    ∧ (firstNameOnChange ClearSearchParams "").FirstName = "*"
    ∧ replaceSpacePlus "*" = "*" :=
  c10_wildcard_unconditional ClearSearchParams ""

end LookupNPI
